import Mathlib

/-!
Shallow embedding of `ouvprofilchrome.py`: a script that resolves a Chrome
profile display name to its internal directory name by reading the JSON
"Local State" file, then launches Chrome bound to that profile.

JSON values are modelled by `JVal`; objects are association lists in
iteration (insertion) order, which is how a parsed Python dict iterates.
The resolver is a function of the parse result (`none` models any failure
of `open`/`json.load`, both swallowed by the `try` in the source).
A Python exception escaping a function is modelled by `Except.error`.
Process spawns are modelled by their outcome (`SpawnOutcome`).
-/

inductive JVal where
  | null
  | bool (b : Bool)
  | num (n : Int)
  | str (s : String)
  | arr (elems : List JVal)
  | obj (entries : List (String × JVal))

/-- Python `d.get(key)` on a dict decoded from JSON (keys unique after
`json.load`, so first match is the match). -/
def jGet : List (String × JVal) → String → Option JVal
  | [], _ => none
  | (k, v) :: rest, key => if k = key then some v else jGet rest key

mutual

/-- Python `repr()` of a JSON-decoded value (as far as the values used here
need: no escaping inside strings). -/
def pyRepr : JVal → String
  | .null => "None"
  | .bool true => "True"
  | .bool false => "False"
  | .num n => toString n
  | .str s => "\x27" ++ s ++ "\x27"
  | .arr elems => "[" ++ pyReprSeq elems ++ "]"
  | .obj entries => "\x7b" ++ pyReprEntries entries ++ "\x7d"

/-- Comma-separated reprs of a list of values. -/
def pyReprSeq : List JVal → String
  | [] => ""
  | v :: rest => pyRepr v ++ (if rest.isEmpty then "" else ", " ++ pyReprSeq rest)

/-- Comma-separated reprs of dict items. -/
def pyReprEntries : List (String × JVal) → String
  | [] => ""
  | (k, v) :: rest =>
    "\x27" ++ k ++ "\x27: " ++ pyRepr v
      ++ (if rest.isEmpty then "" else ", " ++ pyReprEntries rest)

end

/-- Python `str()` of a JSON-decoded value, as used by an f-string. -/
def pyStr (v : JVal) : String :=
  match v with
  | .str s => s
  | _ => pyRepr v

/-- `isinstance(info, dict) and info.get("name") == display_name`:
the requested name is a Python `str`, so the comparison is true exactly
when the `name` field is a string byte-equal to it. -/
def nameMatches (d : String) (info : JVal) : Bool :=
  match info with
  | .obj fields =>
    match jGet fields "name" with
    | some (.str s) => s == d
    | _ => false
  | _ => false

/-- Body of the second loop: skip non-dict records, then
`info.get("gaia_name") == display_name or info.get("user_name") == display_name`. -/
def secondaryMatches (d : String) (info : JVal) : Bool :=
  match info with
  | .obj fields =>
    (match jGet fields "gaia_name" with
     | some (.str s) => s == d
     | _ => false)
    || (match jGet fields "user_name" with
        | some (.str s) => s == d
        | _ => false)
  | _ => false

/-- First loop of `find_profile_dir_by_display_name`: return the first
directory name whose record matches on `name`. -/
def primaryPass (d : String) (entries : List (String × JVal)) : Option String :=
  (List.find? (fun e => nameMatches d e.2) entries).map Prod.fst

/-- Second loop: first directory name matching on `gaia_name` or `user_name`. -/
def secondaryPass (d : String) (entries : List (String × JVal)) : Option String :=
  (List.find? (fun e => secondaryMatches d e.2) entries).map Prod.fst

/-- The two sequential loops over `info_cache.items()`, then `return None`. -/
def resolveFromCache (d : String) (entries : List (String × JVal)) : Option String :=
  match primaryPass d entries with
  | some dirName => some dirName
  | none => secondaryPass d entries

/-- `data.get("profile", {}).get("info_cache") if isinstance(data, dict) else None`.
This line is outside the `try`: when `data["profile"]` exists but is not a
dict, the attribute lookup `.get` raises `AttributeError`, modelled by
`Except.error`. -/
def extractInfoCache (data : JVal) : Except Unit (Option JVal) :=
  match data with
  | .obj kvs =>
    match (jGet kvs "profile").getD (JVal.obj []) with
    | .obj pkvs => .ok (jGet pkvs "info_cache")
    | _ => .error ()
  | _ => .ok none

/-- `find_profile_dir_by_display_name`, as a function of the parse result of
the Local State file (`none` = the open/parse failed; that case is caught
and returns Python `None`, i.e. `.ok none`). -/
def find_profile_dir_by_display_name (d : String) (parsed : Option JVal) :
    Except Unit (Option String) :=
  match parsed with
  | none => .ok none
  | some data =>
    match extractInfoCache data with
    | .error e => .error e
    | .ok infoCache =>
      match infoCache with
      | some (.obj entries) => .ok (resolveFromCache d entries)
      | _ => .ok none

/-- Outcome of a `subprocess.Popen` call: spawned, raised
`FileNotFoundError`, or raised some other exception (with its message). -/
inductive SpawnOutcome where
  | success
  | notFound (msg : String)
  | otherError (msg : String)
deriving Repr, DecidableEq

structure LaunchResult where
  status : Nat
  fallbackAttempted : Bool
  stderr : List String
  profileArg : String
deriving Repr, DecidableEq

/-- `launch_chrome_with_profile`, as a function of the outcomes of the
direct spawn and (if consulted) the fallback `open` spawn. Both spawn
attempts pass the same `--profile-directory=<dir>` argument, recorded in
`profileArg`. -/
def launch_chrome_with_profile (profile_dir : String)
    (direct fallback : SpawnOutcome) : LaunchResult :=
  let arg := "--profile-directory=" ++ profile_dir
  match direct with
  | .success => ⟨0, false, [], arg⟩
  | .notFound _ =>
    match fallback with
    | .success => ⟨0, true, [], arg⟩
    | .notFound m =>
      ⟨1, true, ["Failed to launch Chrome via \x27open\x27: " ++ m], arg⟩
    | .otherError m =>
      ⟨1, true, ["Failed to launch Chrome via \x27open\x27: " ++ m], arg⟩
  | .otherError m =>
    ⟨1, false, ["Failed to launch Chrome: " ++ m], arg⟩

/-- The per-entry line of the diagnostic listing:
`f"- {dir_name} (name: {name})"` where
`name = info.get("name") if isinstance(info, dict) else None`. -/
def listingLine (dir_name : String) (info : JVal) : String :=
  let nameField : Option JVal :=
    match info with
    | .obj fields => jGet fields "name"
    | _ => none
  "- " ++ dir_name ++ " (name: "
    ++ (match nameField with
        | some v => pyStr v
        | none => "None")
    ++ ")"

/-- The re-read-and-list block of `main` (lines printed to stdout). The
whole block sits in a `try` whose handler is `pass`, so the model returns
`[]` wherever the Python would raise (including a non-dict value at
`profile`) or where the guard `isinstance(info_cache, dict) and info_cache`
is falsy. Note `.get("info_cache", {})` defaults to an empty dict here. -/
def list_available_profiles (parsed : Option JVal) : List String :=
  match parsed with
  | some (.obj kvs) =>
    match (jGet kvs "profile").getD (JVal.obj []) with
    | .obj pkvs =>
      match (jGet pkvs "info_cache").getD (JVal.obj []) with
      | .obj entries =>
        if entries.isEmpty then []
        else "Available profiles:" :: entries.map (fun kv => listingLine kv.1 kv.2)
      | _ => []
    | _ => []
  | _ => []

/-- The stderr diagnostic printed when resolution is treated as absent. -/
def notFoundMessage (desired : String) : String :=
  "Chrome profile not found by display name: \x27" ++ desired ++ "\x27."

/-- Observable outcome of a run of `main`: which profile directory the
launcher was invoked with (if any), the `sys.exit` code, and the lines
printed to the two streams. -/
structure MainResult where
  launched : Option String
  exitCode : Nat
  stderr : List String
  stdout : List String
deriving Repr, DecidableEq

/-- The not-found path of `main`: diagnostic to stderr, profile listing to
stdout (the listing `print` calls use the default stream), `sys.exit(2)`. -/
def notFoundResult (desired : String) (reread : Option JVal) : MainResult :=
  ⟨none, 2, [notFoundMessage desired], list_available_profiles reread⟩

/-- `main` (renamed, since Lean reserves that name), as a function of the CLI arguments after the program name, the
two reads of the Local State file (the resolver's read and the diagnostic
re-read), and the spawn outcomes the launcher would see. `if resolved_dir:`
is Python truthiness: the empty string takes the not-found path. An
exception escaping the resolver escapes `main` (`.error`). -/
def main_entry (args : List String) (read1 reread : Option JVal)
    (direct fallback : SpawnOutcome) : Except Unit MainResult :=
  let desired := args.headD "telecomdesign.fr"
  match find_profile_dir_by_display_name desired read1 with
  | .error e => .error e
  | .ok (some resolved_dir) =>
    if resolved_dir = "" then
      .ok (notFoundResult desired reread)
    else
      let lr := launch_chrome_with_profile resolved_dir direct fallback
      .ok ⟨some resolved_dir, lr.status, lr.stderr, []⟩
  | .ok none => .ok (notFoundResult desired reread)

/-- The parse result has the shape `main` and the resolver need to reach an
info cache: a top-level object whose `profile` value is an object whose
`info_cache` value is an object with the given entries. -/
def WellFormedCache (parsed : Option JVal) (entries : List (String × JVal)) : Prop :=
  ∃ kvs pkvs,
    parsed = some (JVal.obj kvs)
    ∧ jGet kvs "profile" = some (JVal.obj pkvs)
    ∧ jGet pkvs "info_cache" = some (JVal.obj entries)

/-- Reduce the resolver on a parse result that reaches an info cache. -/
theorem find_profile_eq_of_wf (d : String) {parsed : Option JVal}
    {entries : List (String × JVal)} (h : WellFormedCache parsed entries) :
    find_profile_dir_by_display_name d parsed = .ok (resolveFromCache d entries) := by
  obtain ⟨kvs, pkvs, hp, hprof, hic⟩ := h
  subst hp
  simp [find_profile_dir_by_display_name, extractInfoCache, hprof, hic]

/-- Reduce the diagnostic listing on a parse result that reaches an info cache. -/
theorem list_available_profiles_of_wf {parsed : Option JVal}
    {entries : List (String × JVal)} (h : WellFormedCache parsed entries) :
    list_available_profiles parsed =
      if entries.isEmpty then []
      else "Available profiles:" :: entries.map (fun kv => listingLine kv.1 kv.2) := by
  obtain ⟨kvs, pkvs, hp, hprof, hic⟩ := h
  subst hp
  simp [list_available_profiles, hprof, hic]

/-- A linear scan returns the key of the first entry satisfying the predicate. -/
theorem findPass_first {p : String × JVal → Bool}
    {entries pre post : List (String × JVal)} {k : String} {v : JVal}
    (hsplit : entries = pre ++ (k, v) :: post)
    (hpre : ∀ e ∈ pre, p e = false)
    (hv : p (k, v) = true) :
    (List.find? p entries).map Prod.fst = some k := by
  subst hsplit
  rw [List.find?_append]
  have h1 : List.find? p pre = none :=
    List.find?_eq_none.mpr (fun x hx => by simp [hpre x hx])
  rw [h1, List.find?_cons_of_pos _ hv]
  rfl

theorem primaryPass_eq_first {d : String}
    {entries pre post : List (String × JVal)} {k : String} {v : JVal}
    (hsplit : entries = pre ++ (k, v) :: post)
    (hpre : ∀ e ∈ pre, nameMatches d e.2 = false)
    (hv : nameMatches d v = true) :
    primaryPass d entries = some k :=
  findPass_first hsplit hpre hv

theorem secondaryPass_eq_first {d : String}
    {entries pre post : List (String × JVal)} {k : String} {v : JVal}
    (hsplit : entries = pre ++ (k, v) :: post)
    (hpre : ∀ e ∈ pre, secondaryMatches d e.2 = false)
    (hv : secondaryMatches d v = true) :
    secondaryPass d entries = some k :=
  findPass_first hsplit hpre hv

theorem primaryPass_eq_none {d : String} {entries : List (String × JVal)}
    (h : ∀ e ∈ entries, nameMatches d e.2 = false) :
    primaryPass d entries = none := by
  have : List.find? (fun e => nameMatches d e.2) entries = none :=
    List.find?_eq_none.mpr (fun x hx => by simp [h x hx])
  simp [primaryPass, this]

theorem resolveFromCache_primary {d : String}
    {entries pre post : List (String × JVal)} {k : String} {v : JVal}
    (hsplit : entries = pre ++ (k, v) :: post)
    (hpre : ∀ e ∈ pre, nameMatches d e.2 = false)
    (hv : nameMatches d v = true) :
    resolveFromCache d entries = some k := by
  have h := primaryPass_eq_first hsplit hpre hv
  simp [resolveFromCache, h]

theorem resolveFromCache_secondary {d : String}
    {entries pre post : List (String × JVal)} {k : String} {v : JVal}
    (hnoname : ∀ e ∈ entries, nameMatches d e.2 = false)
    (hsplit : entries = pre ++ (k, v) :: post)
    (hpre : ∀ e ∈ pre, secondaryMatches d e.2 = false)
    (hv : secondaryMatches d v = true) :
    resolveFromCache d entries = some k := by
  have h1 := primaryPass_eq_none hnoname
  have h2 := secondaryPass_eq_first hsplit hpre hv
  simp [resolveFromCache, h1, h2]

/-- Inversion: a record matches the primary pass only if it is an object
whose `name` field is exactly the requested string. -/
theorem nameMatches_inv {d : String} {v : JVal} (h : nameMatches d v = true) :
    ∃ fields, v = JVal.obj fields ∧ jGet fields "name" = some (JVal.str d) := by
  cases v with
  | obj fields =>
    refine ⟨fields, rfl, ?_⟩
    simp only [nameMatches] at h
    cases hj : jGet fields "name" with
    | none => rw [hj] at h; simp at h
    | some fv =>
      rw [hj] at h
      cases fv <;> simp_all
  | null => simp [nameMatches] at h
  | bool b => simp [nameMatches] at h
  | num n => simp [nameMatches] at h
  | str s => simp [nameMatches] at h
  | arr elems => simp [nameMatches] at h

/-- A record matches the secondary pass only if it is an object whose
`gaia_name` or `user_name` field is exactly the requested string. -/
theorem secondaryMatches_inv {d : String} {v : JVal} (h : secondaryMatches d v = true) :
    ∃ fields, v = JVal.obj fields
      ∧ (jGet fields "gaia_name" = some (JVal.str d)
         ∨ jGet fields "user_name" = some (JVal.str d)) := by
  cases v with
  | obj fields =>
    refine ⟨fields, rfl, ?_⟩
    simp only [secondaryMatches, Bool.or_eq_true] at h
    rcases h with h | h
    · left
      cases hj : jGet fields "gaia_name" with
      | none => rw [hj] at h; simp at h
      | some fv => rw [hj] at h; cases fv <;> simp_all
    · right
      cases hj : jGet fields "user_name" with
      | none => rw [hj] at h; simp at h
      | some fv => rw [hj] at h; cases fv <;> simp_all
  | null => simp [secondaryMatches] at h
  | bool b => simp [secondaryMatches] at h
  | num n => simp [secondaryMatches] at h
  | str s => simp [secondaryMatches] at h
  | arr elems => simp [secondaryMatches] at h

/-- Whatever either pass returns is the key of an entry of the cache. -/
theorem passKey_mem {p : String × JVal → Bool} {entries : List (String × JVal)}
    {k : String} (h : (List.find? p entries).map Prod.fst = some k) :
    k ∈ entries.map Prod.fst := by
  cases hf : List.find? p entries with
  | none => rw [hf] at h; simp at h
  | some e =>
    rw [hf] at h
    simp at h
    subst h
    exact List.mem_map_of_mem Prod.fst (List.mem_of_find?_eq_some hf)

theorem resolveFromCache_mem {d k : String} {entries : List (String × JVal)}
    (h : resolveFromCache d entries = some k) : k ∈ entries.map Prod.fst := by
  unfold resolveFromCache at h
  cases hp : primaryPass d entries with
  | some k2 =>
    rw [hp] at h
    simp at h
    subst h
    exact passKey_mem hp
  | none =>
    rw [hp] at h
    simp at h
    exact passKey_mem h

/-- C2: the primary pass scans the info-cache entries in iteration order and
returns the first directory name whose record has a `name` field equal to
the requested display name under byte-exact, case-sensitive string
equality; when several records share that display name, the first one in
iteration order wins. Stated for any split of the cache at the first
matching entry, both for the pass itself and for the whole resolver. -/
theorem resolver_primary_first_match_wins
    (d : String) (parsed : Option JVal)
    (entries pre post : List (String × JVal)) (k : String) (v : JVal)
    (hwf : WellFormedCache parsed entries)
    (hsplit : entries = pre ++ (k, v) :: post)
    (hpre : ∀ e ∈ pre, nameMatches d e.2 = false)
    (hv : nameMatches d v = true) :
    primaryPass d entries = some k
    ∧ find_profile_dir_by_display_name d parsed = .ok (some k) := by
  have h1 := primaryPass_eq_first hsplit hpre hv
  have h2 := find_profile_eq_of_wf d hwf
  rw [resolveFromCache_primary hsplit hpre hv] at h2
  exact ⟨h1, h2⟩

/-- C2 witness: in a cache where a null record precedes two records sharing
the display name, the first of the sharing records wins. -/
theorem resolver_primary_first_match_wins_witness :
    primaryPass "dup"
        [("A", JVal.null),
         ("B", JVal.obj [("name", JVal.str "dup")]),
         ("C", JVal.obj [("name", JVal.str "dup")])] = some "B"
    ∧ find_profile_dir_by_display_name "dup"
        (some (JVal.obj [("profile", JVal.obj [("info_cache", JVal.obj
          [("A", JVal.null),
           ("B", JVal.obj [("name", JVal.str "dup")]),
           ("C", JVal.obj [("name", JVal.str "dup")])])])]))
      = .ok (some "B") :=
  resolver_primary_first_match_wins "dup" _ _
    [("A", JVal.null)] [("C", JVal.obj [("name", JVal.str "dup")])]
    "B" (JVal.obj [("name", JVal.str "dup")])
    ⟨_, _, rfl, rfl, rfl⟩ rfl
    (by intro e he; simp at he; subst he; rfl) rfl

/-- C3: the secondary pass runs only when no record matched on `name`; a
requested name that matches no `name` field but matches some record on
`gaia_name` or `user_name` still resolves, to the first such directory
name in iteration order. -/
theorem resolver_secondary_pass_succeeds
    (d : String) (parsed : Option JVal)
    (entries pre post : List (String × JVal)) (k : String) (v : JVal)
    (hwf : WellFormedCache parsed entries)
    (hnoname : ∀ e ∈ entries, nameMatches d e.2 = false)
    (hsplit : entries = pre ++ (k, v) :: post)
    (hpre : ∀ e ∈ pre, secondaryMatches d e.2 = false)
    (hv : secondaryMatches d v = true) :
    primaryPass d entries = none
    ∧ secondaryPass d entries = some k
    ∧ find_profile_dir_by_display_name d parsed = .ok (some k) := by
  have h1 := primaryPass_eq_none hnoname
  have h2 := secondaryPass_eq_first hsplit hpre hv
  have h3 := find_profile_eq_of_wf d hwf
  rw [resolveFromCache_secondary hnoname hsplit hpre hv] at h3
  exact ⟨h1, h2, h3⟩

/-- C3 witness: a record carrying only a `gaia_name` resolves via the
secondary pass. -/
theorem resolver_secondary_pass_succeeds_witness :
    primaryPass "g@example.com"
        [("Default", JVal.obj [("gaia_name", JVal.str "g@example.com")])] = none
    ∧ secondaryPass "g@example.com"
        [("Default", JVal.obj [("gaia_name", JVal.str "g@example.com")])] = some "Default"
    ∧ find_profile_dir_by_display_name "g@example.com"
        (some (JVal.obj [("profile", JVal.obj [("info_cache", JVal.obj
          [("Default", JVal.obj [("gaia_name", JVal.str "g@example.com")])])])]))
      = .ok (some "Default") :=
  resolver_secondary_pass_succeeds "g@example.com" _ _ [] []
    "Default" (JVal.obj [("gaia_name", JVal.str "g@example.com")])
    ⟨_, _, rfl, rfl, rfl⟩
    (by intro e he; simp at he; subst he; rfl) rfl
    (by intro e he; simp at he) rfl

/-- C4: the launcher returns 0 exactly when the direct spawn succeeds or the
direct spawn raises the not-found failure and the fallback spawn succeeds;
the fallback is consulted exactly on the not-found failure; every other
outcome returns 1 after printing one diagnostic line; no other status is
possible. -/
theorem launch_contract (profile_dir : String) (direct fallback : SpawnOutcome) :
    ((launch_chrome_with_profile profile_dir direct fallback).status = 0
      ↔ (direct = .success ∨ ((∃ m, direct = .notFound m) ∧ fallback = .success)))
    ∧ ((launch_chrome_with_profile profile_dir direct fallback).fallbackAttempted = true
      ↔ (∃ m, direct = .notFound m))
    ∧ ((launch_chrome_with_profile profile_dir direct fallback).status = 1
      ↔ (∃ line, (launch_chrome_with_profile profile_dir direct fallback).stderr = [line]))
    ∧ ((launch_chrome_with_profile profile_dir direct fallback).status = 0
       ∨ (launch_chrome_with_profile profile_dir direct fallback).status = 1) := by
  cases direct <;> cases fallback <;> simp [launch_chrome_with_profile]

/-- C5: `data.get("profile", {}).get("info_cache")` sits outside the `try`;
when the top-level object maps `profile` to a non-object, the attribute
access raises, so an exception does escape the resolver, for every
requested display name. -/
theorem resolver_raises_on_nondict_profile (d : String) :
    find_profile_dir_by_display_name d
      (some (JVal.obj [("profile", JVal.num 5)])) = .error () := rfl

/-- C1 counterexample: the info cache holds one record, under the directory
name `""`, whose `name` field equals the requested display name `"x"`; the
resolver does return that directory name, yet `main` never invokes the
launcher and exits 2, because `if resolved_dir:` treats the empty string as
falsy. -/
theorem main_name_match_counterexample :
    nameMatches "x" (JVal.obj [("name", JVal.str "x")]) = true
    ∧ find_profile_dir_by_display_name "x"
        (some (JVal.obj [("profile", JVal.obj [("info_cache", JVal.obj
          [("", JVal.obj [("name", JVal.str "x")])])])]))
      = .ok (some "")
    ∧ main_entry ["x"]
        (some (JVal.obj [("profile", JVal.obj [("info_cache", JVal.obj
          [("", JVal.obj [("name", JVal.str "x")])])])]))
        (some (JVal.obj [("profile", JVal.obj [("info_cache", JVal.obj
          [("", JVal.obj [("name", JVal.str "x")])])])]))
        SpawnOutcome.success SpawnOutcome.success
      = .ok ⟨none, 2, [notFoundMessage "x"],
             ["Available profiles:", listingLine "" (JVal.obj [("name", JVal.str "x")])]⟩ :=
  ⟨rfl, rfl, rfl⟩

/-- C1 amended: when the requested display name equals the `name` field of
some record, resolution returns the directory name of the first such
record; if that directory name is non-empty the program invokes the
launcher with it and terminates with the launcher status, and only when it
is the empty string does the program take the not-found path and exit 2. -/
theorem main_launches_on_name_match
    (args : List String) (parsed : Option JVal)
    (entries pre post : List (String × JVal)) (k : String) (v : JVal)
    (direct fallback : SpawnOutcome)
    (hwf : WellFormedCache parsed entries)
    (hsplit : entries = pre ++ (k, v) :: post)
    (hpre : ∀ e ∈ pre, nameMatches (args.headD "telecomdesign.fr") e.2 = false)
    (hv : nameMatches (args.headD "telecomdesign.fr") v = true) :
    find_profile_dir_by_display_name (args.headD "telecomdesign.fr") parsed = .ok (some k)
    ∧ main_entry args parsed parsed direct fallback =
        .ok (if k = "" then notFoundResult (args.headD "telecomdesign.fr") parsed
             else ⟨some k,
                   (launch_chrome_with_profile k direct fallback).status,
                   (launch_chrome_with_profile k direct fallback).stderr, []⟩) := by
  have hfind := find_profile_eq_of_wf (args.headD "telecomdesign.fr") hwf
  rw [resolveFromCache_primary hsplit hpre hv] at hfind
  refine ⟨hfind, ?_⟩
  by_cases hk : k = "" <;>
    (simp only [main_entry]; rw [hfind]; simp [hk])

/-- C1 witness: a non-empty directory name whose record matches leads to a
launch and the launcher status as exit code. -/
theorem main_launches_on_name_match_witness :
    find_profile_dir_by_display_name "a"
        (some (JVal.obj [("profile", JVal.obj [("info_cache", JVal.obj
          [("Default", JVal.obj [("name", JVal.str "a")])])])]))
      = .ok (some "Default")
    ∧ main_entry ["a"]
        (some (JVal.obj [("profile", JVal.obj [("info_cache", JVal.obj
          [("Default", JVal.obj [("name", JVal.str "a")])])])]))
        (some (JVal.obj [("profile", JVal.obj [("info_cache", JVal.obj
          [("Default", JVal.obj [("name", JVal.str "a")])])])]))
        SpawnOutcome.success SpawnOutcome.success
      = .ok (if "Default" = ""
             then notFoundResult "a"
                 (some (JVal.obj [("profile", JVal.obj [("info_cache", JVal.obj
                   [("Default", JVal.obj [("name", JVal.str "a")])])])]))
             else ⟨some "Default",
                   (launch_chrome_with_profile "Default" SpawnOutcome.success SpawnOutcome.success).status,
                   (launch_chrome_with_profile "Default" SpawnOutcome.success SpawnOutcome.success).stderr,
                   []⟩) :=
  main_launches_on_name_match ["a"] _ _ [] []
    "Default" (JVal.obj [("name", JVal.str "a")])
    SpawnOutcome.success SpawnOutcome.success
    ⟨_, _, rfl, rfl, rfl⟩ rfl
    (by intro e he; simp at he) rfl

/-- C6: when the requested display name matches no record of a readable
configuration, `main` prints the stderr diagnostic naming the requested
name, prints the available-profiles listing with exactly one line per
info-cache entry (plus its header when the cache is non-empty), and exits
with code 2 without invoking the launcher. -/
theorem main_not_found_lists_profiles
    (args : List String) (parsed : Option JVal) (entries : List (String × JVal))
    (direct fallback : SpawnOutcome)
    (hwf : WellFormedCache parsed entries)
    (hnone : resolveFromCache (args.headD "telecomdesign.fr") entries = none) :
    main_entry args parsed parsed direct fallback =
      .ok (notFoundResult (args.headD "telecomdesign.fr") parsed)
    ∧ (notFoundResult (args.headD "telecomdesign.fr") parsed).launched = none
    ∧ (notFoundResult (args.headD "telecomdesign.fr") parsed).exitCode = 2
    ∧ (notFoundResult (args.headD "telecomdesign.fr") parsed).stderr
        = [notFoundMessage (args.headD "telecomdesign.fr")]
    ∧ (notFoundResult (args.headD "telecomdesign.fr") parsed).stdout
        = (if entries.isEmpty then []
           else "Available profiles:" :: entries.map (fun kv => listingLine kv.1 kv.2))
    ∧ (notFoundResult (args.headD "telecomdesign.fr") parsed).stdout.length
        = (if entries.isEmpty then 0 else entries.length + 1) := by
  have hfind := find_profile_eq_of_wf (args.headD "telecomdesign.fr") hwf
  rw [hnone] at hfind
  have hlist := list_available_profiles_of_wf hwf
  refine ⟨by simp only [main_entry]; rw [hfind], rfl, rfl, rfl, hlist, ?_⟩
  show (list_available_profiles parsed).length = _
  rw [hlist]
  cases entries with
  | nil => rfl
  | cons e es => simp

/-- C6 witness: the spec scenario with argument `bob@example.com` against
the two-profile configuration: exit 2, the stderr diagnostic, and a
two-line listing after the header. -/
theorem main_not_found_lists_profiles_witness :
    main_entry ["bob@example.com"]
        (some (JVal.obj [("profile", JVal.obj [("info_cache", JVal.obj
          [("Default", JVal.obj [("name", JVal.str "alice@example.com")]),
           ("Profile 2", JVal.obj [("name", JVal.str "telecomdesign.fr")])])])]))
        (some (JVal.obj [("profile", JVal.obj [("info_cache", JVal.obj
          [("Default", JVal.obj [("name", JVal.str "alice@example.com")]),
           ("Profile 2", JVal.obj [("name", JVal.str "telecomdesign.fr")])])])]))
        SpawnOutcome.success SpawnOutcome.success
      = .ok (notFoundResult "bob@example.com"
          (some (JVal.obj [("profile", JVal.obj [("info_cache", JVal.obj
            [("Default", JVal.obj [("name", JVal.str "alice@example.com")]),
             ("Profile 2", JVal.obj [("name", JVal.str "telecomdesign.fr")])])])])))
    ∧ (notFoundResult "bob@example.com"
        (some (JVal.obj [("profile", JVal.obj [("info_cache", JVal.obj
          [("Default", JVal.obj [("name", JVal.str "alice@example.com")]),
           ("Profile 2", JVal.obj [("name", JVal.str "telecomdesign.fr")])])])]))).launched
        = none
    ∧ (notFoundResult "bob@example.com"
        (some (JVal.obj [("profile", JVal.obj [("info_cache", JVal.obj
          [("Default", JVal.obj [("name", JVal.str "alice@example.com")]),
           ("Profile 2", JVal.obj [("name", JVal.str "telecomdesign.fr")])])])]))).exitCode
        = 2
    ∧ (notFoundResult "bob@example.com"
        (some (JVal.obj [("profile", JVal.obj [("info_cache", JVal.obj
          [("Default", JVal.obj [("name", JVal.str "alice@example.com")]),
           ("Profile 2", JVal.obj [("name", JVal.str "telecomdesign.fr")])])])]))).stderr
        = [notFoundMessage "bob@example.com"]
    ∧ (notFoundResult "bob@example.com"
        (some (JVal.obj [("profile", JVal.obj [("info_cache", JVal.obj
          [("Default", JVal.obj [("name", JVal.str "alice@example.com")]),
           ("Profile 2", JVal.obj [("name", JVal.str "telecomdesign.fr")])])])]))).stdout
        = (if ([("Default", JVal.obj [("name", JVal.str "alice@example.com")]),
               ("Profile 2", JVal.obj [("name", JVal.str "telecomdesign.fr")])] :
               List (String × JVal)).isEmpty then []
           else "Available profiles:" ::
             ([("Default", JVal.obj [("name", JVal.str "alice@example.com")]),
               ("Profile 2", JVal.obj [("name", JVal.str "telecomdesign.fr")])] :
               List (String × JVal)).map (fun kv => listingLine kv.1 kv.2))
    ∧ (notFoundResult "bob@example.com"
        (some (JVal.obj [("profile", JVal.obj [("info_cache", JVal.obj
          [("Default", JVal.obj [("name", JVal.str "alice@example.com")]),
           ("Profile 2", JVal.obj [("name", JVal.str "telecomdesign.fr")])])])]))).stdout.length
        = (if ([("Default", JVal.obj [("name", JVal.str "alice@example.com")]),
               ("Profile 2", JVal.obj [("name", JVal.str "telecomdesign.fr")])] :
               List (String × JVal)).isEmpty then 0
           else ([("Default", JVal.obj [("name", JVal.str "alice@example.com")]),
                  ("Profile 2", JVal.obj [("name", JVal.str "telecomdesign.fr")])] :
                  List (String × JVal)).length + 1) :=
  main_not_found_lists_profiles ["bob@example.com"] _ _
    SpawnOutcome.success SpawnOutcome.success
    ⟨_, _, rfl, rfl, rfl⟩ rfl

/-- C7: invoked with no argument, the entry point falls back to the default
display name `telecomdesign.fr`; on the spec scenario configuration the
resolver returns `Profile 2`, the launcher is invoked with it, and the exit
code is the launcher status, whatever the spawn outcomes. -/
theorem main_default_argument_scenario (direct fallback : SpawnOutcome) :
    find_profile_dir_by_display_name "telecomdesign.fr"
        (some (JVal.obj [("profile", JVal.obj [("info_cache", JVal.obj
          [("Default", JVal.obj [("name", JVal.str "alice@example.com")]),
           ("Profile 2", JVal.obj [("name", JVal.str "telecomdesign.fr")])])])]))
      = .ok (some "Profile 2")
    ∧ main_entry []
        (some (JVal.obj [("profile", JVal.obj [("info_cache", JVal.obj
          [("Default", JVal.obj [("name", JVal.str "alice@example.com")]),
           ("Profile 2", JVal.obj [("name", JVal.str "telecomdesign.fr")])])])]))
        (some (JVal.obj [("profile", JVal.obj [("info_cache", JVal.obj
          [("Default", JVal.obj [("name", JVal.str "alice@example.com")]),
           ("Profile 2", JVal.obj [("name", JVal.str "telecomdesign.fr")])])])]))
        direct fallback
      = .ok ⟨some "Profile 2",
             (launch_chrome_with_profile "Profile 2" direct fallback).status,
             (launch_chrome_with_profile "Profile 2" direct fallback).stderr, []⟩ :=
  ⟨rfl, rfl⟩

/-- C8: over a cache whose entry values have arbitrary type, the resolver
never raises (its result is always `.ok`), and either pass can only return
an entry that is an object carrying the relevant field as a string equal to
the requested name — so a non-object record, or an absent or non-string
field, is never the match. -/
theorem resolver_tolerates_arbitrary_records
    (d : String) (parsed : Option JVal) (entries : List (String × JVal))
    (hwf : WellFormedCache parsed entries) :
    (∃ res, find_profile_dir_by_display_name d parsed = .ok res)
    ∧ (∀ k, primaryPass d entries = some k →
        ∃ fields, (k, JVal.obj fields) ∈ entries
          ∧ jGet fields "name" = some (JVal.str d))
    ∧ (∀ k, secondaryPass d entries = some k →
        ∃ fields, (k, JVal.obj fields) ∈ entries
          ∧ (jGet fields "gaia_name" = some (JVal.str d)
             ∨ jGet fields "user_name" = some (JVal.str d))) := by
  refine ⟨⟨resolveFromCache d entries, find_profile_eq_of_wf d hwf⟩, ?_, ?_⟩
  · intro k hk
    unfold primaryPass at hk
    cases hf : List.find? (fun e => nameMatches d e.2) entries with
    | none => rw [hf] at hk; simp at hk
    | some e =>
      obtain ⟨k1, v1⟩ := e
      rw [hf] at hk
      simp at hk
      subst hk
      have hm := List.find?_some hf
      obtain ⟨fields, hv, hname⟩ := nameMatches_inv hm
      subst hv
      exact ⟨fields, List.mem_of_find?_eq_some hf, hname⟩
  · intro k hk
    unfold secondaryPass at hk
    cases hf : List.find? (fun e => secondaryMatches d e.2) entries with
    | none => rw [hf] at hk; simp at hk
    | some e =>
      obtain ⟨k1, v1⟩ := e
      rw [hf] at hk
      simp at hk
      subst hk
      have hm := List.find?_some hf
      obtain ⟨fields, hv, hname⟩ := secondaryMatches_inv hm
      subst hv
      exact ⟨fields, List.mem_of_find?_eq_some hf, hname⟩

/-- C8 witness: a cache mixing a null record, a record with a numeric
`name`, and a proper match; the contract holds at this input. -/
theorem resolver_tolerates_arbitrary_records_witness :
    (∃ res, find_profile_dir_by_display_name "c"
        (some (JVal.obj [("profile", JVal.obj [("info_cache", JVal.obj
          [("A", JVal.null),
           ("B", JVal.obj [("name", JVal.num 3)]),
           ("C", JVal.obj [("name", JVal.str "c")])])])])) = .ok res)
    ∧ (∀ k, primaryPass "c"
          [("A", JVal.null),
           ("B", JVal.obj [("name", JVal.num 3)]),
           ("C", JVal.obj [("name", JVal.str "c")])] = some k →
        ∃ fields, (k, JVal.obj fields) ∈
            [("A", JVal.null),
             ("B", JVal.obj [("name", JVal.num 3)]),
             ("C", JVal.obj [("name", JVal.str "c")])]
          ∧ jGet fields "name" = some (JVal.str "c"))
    ∧ (∀ k, secondaryPass "c"
          [("A", JVal.null),
           ("B", JVal.obj [("name", JVal.num 3)]),
           ("C", JVal.obj [("name", JVal.str "c")])] = some k →
        ∃ fields, (k, JVal.obj fields) ∈
            [("A", JVal.null),
             ("B", JVal.obj [("name", JVal.num 3)]),
             ("C", JVal.obj [("name", JVal.str "c")])]
          ∧ (jGet fields "gaia_name" = some (JVal.str "c")
             ∨ jGet fields "user_name" = some (JVal.str "c"))) :=
  resolver_tolerates_arbitrary_records "c" _ _ ⟨_, _, rfl, rfl, rfl⟩

/-- C9: whenever the resolver returns a directory name, that name is one of
the keys of the info cache it read; no synthetic directory name exists. -/
theorem resolver_returns_existing_key
    (d : String) (parsed : Option JVal) (k : String)
    (h : find_profile_dir_by_display_name d parsed = .ok (some k)) :
    ∃ entries, WellFormedCache parsed entries ∧ k ∈ entries.map Prod.fst := by
  cases parsed with
  | none => simp [find_profile_dir_by_display_name] at h
  | some data =>
    cases data with
    | obj kvs =>
      cases hprof : jGet kvs "profile" with
      | none => simp [find_profile_dir_by_display_name, extractInfoCache, hprof, jGet] at h
      | some pv =>
        cases pv with
        | obj pkvs =>
          cases hic : jGet pkvs "info_cache" with
          | none => simp [find_profile_dir_by_display_name, extractInfoCache, hprof, hic] at h
          | some icv =>
            cases icv with
            | obj entries =>
              have h2 : resolveFromCache d entries = some k := by
                simpa [find_profile_dir_by_display_name, extractInfoCache, hprof, hic] using h
              exact ⟨entries, ⟨kvs, pkvs, rfl, hprof, hic⟩, resolveFromCache_mem h2⟩
            | null => simp [find_profile_dir_by_display_name, extractInfoCache, hprof, hic] at h
            | bool b => simp [find_profile_dir_by_display_name, extractInfoCache, hprof, hic] at h
            | num n => simp [find_profile_dir_by_display_name, extractInfoCache, hprof, hic] at h
            | str s => simp [find_profile_dir_by_display_name, extractInfoCache, hprof, hic] at h
            | arr elems => simp [find_profile_dir_by_display_name, extractInfoCache, hprof, hic] at h
        | null => simp [find_profile_dir_by_display_name, extractInfoCache, hprof] at h
        | bool b => simp [find_profile_dir_by_display_name, extractInfoCache, hprof] at h
        | num n => simp [find_profile_dir_by_display_name, extractInfoCache, hprof] at h
        | str s => simp [find_profile_dir_by_display_name, extractInfoCache, hprof] at h
        | arr elems => simp [find_profile_dir_by_display_name, extractInfoCache, hprof] at h
    | null => simp [find_profile_dir_by_display_name, extractInfoCache] at h
    | bool b => simp [find_profile_dir_by_display_name, extractInfoCache] at h
    | num n => simp [find_profile_dir_by_display_name, extractInfoCache] at h
    | str s => simp [find_profile_dir_by_display_name, extractInfoCache] at h
    | arr elems => simp [find_profile_dir_by_display_name, extractInfoCache] at h

/-- C9 witness: the resolved directory is a key of the cache it was read
from. -/
theorem resolver_returns_existing_key_witness :
    ∃ entries,
      WellFormedCache
        (some (JVal.obj [("profile", JVal.obj [("info_cache", JVal.obj
          [("Default", JVal.obj [("name", JVal.str "x")])])])])) entries
      ∧ "Default" ∈ entries.map Prod.fst :=
  resolver_returns_existing_key "x"
    (some (JVal.obj [("profile", JVal.obj [("info_cache", JVal.obj
      [("Default", JVal.obj [("name", JVal.str "x")])])])]))
    "Default" rfl

/-- C10: when the resolver returns the empty string as the directory name,
`if resolved_dir:` is falsy, so `main` skips the launcher and takes the
not-found path, exiting 2. -/
theorem main_treats_empty_dir_as_absent
    (args : List String) (read1 reread : Option JVal)
    (direct fallback : SpawnOutcome)
    (h : find_profile_dir_by_display_name (args.headD "telecomdesign.fr") read1
          = .ok (some "")) :
    main_entry args read1 reread direct fallback
      = .ok (notFoundResult (args.headD "telecomdesign.fr") reread)
    ∧ (notFoundResult (args.headD "telecomdesign.fr") reread).launched = none
    ∧ (notFoundResult (args.headD "telecomdesign.fr") reread).exitCode = 2 := by
  refine ⟨?_, rfl, rfl⟩
  simp only [main_entry]
  rw [h]
  simp

/-- C10 witness: a cache whose only entry sits under the directory name `""`
and matches the request; `main` exits 2 without launching. -/
theorem main_treats_empty_dir_as_absent_witness :
    main_entry ["y"]
        (some (JVal.obj [("profile", JVal.obj [("info_cache", JVal.obj
          [("", JVal.obj [("name", JVal.str "y")])])])]))
        (some (JVal.obj [("profile", JVal.obj [("info_cache", JVal.obj
          [("", JVal.obj [("name", JVal.str "y")])])])]))
        SpawnOutcome.success SpawnOutcome.success
      = .ok (notFoundResult "y"
          (some (JVal.obj [("profile", JVal.obj [("info_cache", JVal.obj
            [("", JVal.obj [("name", JVal.str "y")])])])])))
    ∧ (notFoundResult "y"
        (some (JVal.obj [("profile", JVal.obj [("info_cache", JVal.obj
          [("", JVal.obj [("name", JVal.str "y")])])])]))).launched = none
    ∧ (notFoundResult "y"
        (some (JVal.obj [("profile", JVal.obj [("info_cache", JVal.obj
          [("", JVal.obj [("name", JVal.str "y")])])])]))).exitCode = 2 :=
  main_treats_empty_dir_as_absent ["y"] _ _
    SpawnOutcome.success SpawnOutcome.success rfl
